import Mathlib

/-!
Shallow embedding of `src/record.cpp` (LUCID polarization camera recording example).

The embedding covers:
* the per-frame polarization-channel splitter inside `RecordVideo`
  (`record.cpp` lines 229–265): the strided copy loop that demultiplexes a
  packed 4-angle `RawFrame` into four per-angle `ChannelFrame` buffers;
* the four-stream append loop of `RecordVideo` (lines 218–273);
* the node-value clamping helpers `SetIntValue` (lines 86–114) and
  `SetFloatValue` (lines 119–142);
* `main`'s session control flow (lines 291–545): argument checks, the
  capture loop, the settings save/restore, and the exception paths.

Modelling conventions:
* bytes are `Nat` (the loop only copies bytes, no arithmetic is performed
  on them, so no `% 256` is needed);
* C++ `int64_t` values are `Int`; `int64_t` division truncates toward zero
  and is embedded as `Int.tdiv`;
* C++ `double` values are embedded as `ℚ`: `SetFloatValue` only compares
  and selects (no float arithmetic), so its behaviour is order-faithful on
  any linear order; the NaN case cannot arise for the values the program
  feeds it (the fps argument is checked `> 0` at parse time);
* `GetSizeFilled() - 1` is `size_t` arithmetic; it is embedded as natural
  subtraction, which agrees with `size_t` for every nonempty buffer.  The
  frames handled by the program are never empty: `main` rejects zero
  width/height (line 341), so `RawFrame`s have size `w*h*4 ≥ 4`.
-/

/-! ### The frame splitter state (`RecordVideo`, lines 229–248)

`input` is the captured image's byte buffer (`inputBufferPtr`), `b0`, `b45`,
`b90`, `b135` are the four per-angle output buffers (`outputBuffer0` …
`outputBuffer135`), and `bufferIndex` is the running destination index. -/

structure SplitState where
  input : List Nat
  b0 : List Nat
  b45 : List Nat
  b90 : List Nat
  b135 : List Nat
  bufferIndex : Nat
deriving DecidableEq, Repr

/-- Modelled from the spec: `Arena::ImageFactory::Create` is part of the
external Arena SDK and is not in the repository.  The source passes the one
`dummyBuffer` allocation (line 232) to all four `Create` calls (lines
234–237); per the spec's data model a `ChannelFrame` is "Created fresh per
RawFrame per angle", i.e. each `Create` call yields an image with its own
`w*h`-byte data buffer (initialised from the passed buffer), so the four
output buffers are four distinct buffers.  `z` stands for the (indeterminate)
contents of the freshly `new`-allocated `dummyBuffer`. -/
def createChannelBuffers (w h z : Nat) : List Nat × List Nat × List Nat × List Nat :=
  (List.replicate (w * h) z, List.replicate (w * h) z,
   List.replicate (w * h) z, List.replicate (w * h) z)

/-- One iteration of the splitting loop body (`record.cpp` lines 250–264):
```
outputBuffer0[bufferIndex]   = inputBufferPtr[i];
outputBuffer45[bufferIndex]  = inputBufferPtr[i+1];
outputBuffer90[bufferIndex]  = inputBufferPtr[i+2];
outputBuffer135[bufferIndex] = inputBufferPtr[i+3];
bufferIndex++;
``` -/
def splitStep (s : SplitState) (i : Nat) : SplitState :=
  { s with
    b0 := s.b0.set s.bufferIndex (s.input.getD i 0),
    b45 := s.b45.set s.bufferIndex (s.input.getD (i + 1) 0),
    b90 := s.b90.set s.bufferIndex (s.input.getD (i + 2) 0),
    b135 := s.b135.set s.bufferIndex (s.input.getD (i + 3) 0),
    bufferIndex := s.bufferIndex + 1 }

/-- The splitting loop `for (uint32_t i = 0; i < buffer_size; i += 4)`
(`record.cpp` line 250).  `fuel` bounds the number of iterations; since the
step is `+4` and the guard is `i < bufferSize`, taking `fuel = bufferSize`
always suffices. -/
def splitLoop (bufferSize : Nat) : Nat → Nat → SplitState → SplitState
  | 0, _, s => s
  | fuel + 1, i, s =>
      if i < bufferSize then splitLoop bufferSize fuel (i + 4) (splitStep s i) else s

/-- Splitting one raw frame (`record.cpp` lines 229–265): allocate the four
`w*h`-byte channel buffers (all filled with `z`, the indeterminate initial
contents of `dummyBuffer`), take `buffer_size = GetSizeFilled() - 1`
(line 246, with `GetSizeFilled()` = the byte length of the frame), and run
the strided copy loop from `i = 0`, `bufferIndex = 0`. -/
def splitFrameFrom (input : List Nat) (w h z : Nat) : SplitState :=
  let bufferSize := input.length - 1
  let bufs := createChannelBuffers w h z
  splitLoop bufferSize bufferSize 0
    { input := input, b0 := bufs.1, b45 := bufs.2.1, b90 := bufs.2.2.1,
      b135 := bufs.2.2.2, bufferIndex := 0 }

/-- The splitter with a fixed initial buffer fill (the canonical instance). -/
def splitFrame (input : List Nat) (w h : Nat) : SplitState :=
  splitFrameFrom input w h 0

/-- The list of source-buffer indices the splitting loop reads, in order:
each executed iteration with loop counter `i` reads `inputBufferPtr[i]`,
`[i+1]`, `[i+2]`, `[i+3]` (`record.cpp` lines 253–262). -/
def readIndices (bufferSize : Nat) : Nat → Nat → List Nat
  | 0, _ => []
  | fuel + 1, i =>
      if i < bufferSize then
        i :: (i + 1) :: (i + 2) :: (i + 3) :: readIndices bufferSize fuel (i + 4)
      else []

/-- The indices of `input` read when splitting it (`buffer_size =
GetSizeFilled() - 1`, line 246). -/
def splitterReadIndices (input : List Nat) : List Nat :=
  readIndices (input.length - 1) (input.length - 1) 0

/-! ### The four-stream recorder (`RecordVideo`, lines 151–284) -/

/-- A captured image as the append loop sees it: `GetWidth()`, `GetHeight()`
and the data buffer (`GetData()` / `GetSizeFilled()` = `data.length`). -/
structure Image where
  width : Nat
  height : Nat
  data : List Nat
deriving DecidableEq, Repr

def emptyImage : Image := { width := 0, height := 0, data := [] }

/-- The four open video streams; each stream is the sequence of frames
appended to it so far (`videoRecorder_0` … `videoRecorder_135`).
The `AppendImage` calls (lines 268–271) hand each recorder the per-angle
channel buffer (the external `Convert(·, RGB8)` step is a per-frame
conversion delegated to the SDK; the appended logical content is the
channel buffer). -/
structure Recorder where
  stream0 : List (List Nat)
  stream45 : List (List Nat)
  stream90 : List (List Nat)
  stream135 : List (List Nat)
deriving DecidableEq, Repr

/-- One iteration of the append loop (`record.cpp` lines 218–273): split
image `i` and append the four resulting channel buffers to the four
streams. -/
def appendImage (r : Recorder) (img : Image) : Recorder :=
  let s := splitFrame img.data img.width img.height
  { stream0 := r.stream0 ++ [s.b0],
    stream45 := r.stream45 ++ [s.b45],
    stream90 := r.stream90 ++ [s.b90],
    stream135 := r.stream135 ++ [s.b135] }

/-- `RecordVideo`'s append loop over all captured images (line 218),
starting from the four freshly opened (empty) streams. -/
def recordVideo (images : List Image) : Recorder :=
  images.foldl appendImage
    { stream0 := [], stream45 := [], stream90 := [], stream135 := [] }

/-! ### Node value clamping (`SetIntValue`, lines 86–114; `SetFloatValue`,
lines 119–142) -/

/-- A GenICam integer node: `GetMin()`, `GetMax()`, `GetInc()`. -/
structure IntNode where
  min : Int
  max : Int
  inc : Int
deriving DecidableEq, Repr

/-- `SetIntValue` (`record.cpp` lines 86–114): snap the requested value to
the node's increment, then clamp it into `[min, max]`, set it, and return
it.  C++ `int64_t` division truncates toward zero, hence `Int.tdiv`. -/
def SetIntValue (node : IntNode) (value : Int) : Int :=
  -- value = (((value - GetMin()) / GetInc()) * GetInc()) + GetMin();
  let snapped := ((value - node.min).tdiv node.inc) * node.inc + node.min
  -- if (value < GetMin()) value = GetMin();
  let lowClamped := if snapped < node.min then node.min else snapped
  -- if (value > GetMax()) value = GetMax();
  if lowClamped > node.max then node.max else lowClamped

/-- A GenICam float node: `GetMin()`, `GetMax()`. -/
structure FloatNode where
  min : ℚ
  max : ℚ
deriving DecidableEq, Repr

/-- `SetFloatValue` (`record.cpp` lines 119–142): clamp the requested value
into `[min, max]`, set it, and return it. -/
def SetFloatValue (node : FloatNode) (value : ℚ) : ℚ :=
  -- if (value < GetMin()) value = GetMin();
  let lowClamped := if value < node.min then node.min else value
  -- if (value > GetMax()) value = GetMax();
  if lowClamped > node.max then node.max else lowClamped

/-! ### The session (`main`, lines 291–545) -/

/-- The device settings `main` reads, mutates and (on the success path)
restores: acquisition mode, frame-rate enable, frame rate, width, height
(lines 391–414), plus the pixel format (set at lines 429–432, never saved).
Enumerated string values (acquisition mode, pixel format) are abstract
tokens. -/
structure CamConfig where
  acquisitionMode : Nat
  frameRateEnable : Bool
  frameRate : ℚ
  width : Int
  height : Int
  pixelFormat : Nat
deriving DecidableEq, Repr

/-- Abstract token for the `"Continuous"` acquisition-mode string. -/
def modeContinuous : Nat := 1

/-- Abstract token for `"PolarizedAngles_0d_45d_90d_135d_Mono8"`. -/
def pfPolarizedAngles : Nat := 2

/-- The capture loop (`record.cpp` lines 465–483): grab `remaining` more
images starting at index `i`; `captureOk i = false` means `GetImage(2000)`
fails on frame `i` (e.g. times out) and throws.  Returns the index of the
first failing frame, or `none` when all frames are grabbed. -/
def captureLoop (captureOk : Nat → Bool) : Nat → Nat → Option Nat
  | _, 0 => none
  | i, remaining + 1 =>
      if captureOk i then captureLoop captureOk (i + 1) remaining else some i

/-- Outcome of `main`'s `try` block and its catch handlers. -/
structure SessionResult where
  finalConfig : CamConfig
  streamsOpened : Nat
  streamsFinalized : Nat
  framesAppended : Nat
  exitCode : Int
  exceptionThrown : Bool
deriving DecidableEq, Repr

/-- `main`'s device session (`record.cpp` lines 389–531): starting from the
device's initial settings `cfg0` (saved at lines 391–414), mutate the
settings (lines 417–445), run the capture loop (lines 462–484), then on
success record the video and restore the saved settings (lines 488–512);
a capture failure throws, reaching the catch handlers (lines 517–531),
which print a message and leave — settings are restored only on the success
path.  The restore path re-applies the saved values through `SetIntValue` /
`SetFloatValue`, exactly as the source does (lines 500–511). -/
def runSession (cfg0 : CamConfig) (widthNode heightNode : IntNode) (fpsNode : FloatNode)
    (reqWidth reqHeight : Int) (reqFps : ℚ) (captureOk : Nat → Bool)
    (numImages : Nat) : SessionResult :=
  -- line 417: AcquisitionMode := "Continuous"; lines 429–432: PixelFormat
  let cfg1 : CamConfig :=
    { cfg0 with acquisitionMode := modeContinuous, pixelFormat := pfPolarizedAngles }
  -- lines 439–440: width = SetIntValue(...); height = SetIntValue(...)
  let cfg2 : CamConfig :=
    { cfg1 with width := SetIntValue widthNode reqWidth,
                height := SetIntValue heightNode reqHeight }
  -- lines 443–445: AcquisitionFrameRateEnable := true; fps = SetFloatValue(...)
  let cfg3 : CamConfig :=
    { cfg2 with frameRateEnable := true, frameRate := SetFloatValue fpsNode reqFps }
  -- lines 462–484: StartStream and the capture loop
  match captureLoop captureOk 0 numImages with
  | some _ =>
      -- GetImage threw: control transfers to the catch blocks (lines
      -- 517–531).  RecordVideo is never called (no stream is opened or
      -- finalized) and the restore code (lines 497–512) is skipped.
      { finalConfig := cfg3, streamsOpened := 0, streamsFinalized := 0,
        framesAppended := 0, exitCode := -1, exceptionThrown := true }
  | none =>
      -- line 488: RecordVideo opens the 4 streams, appends numImages
      -- frames to each and closes (finalizes) all 4.
      -- lines 497–512: restore the initial settings.
      let cfg4 : CamConfig :=
        { cfg3 with
          width := SetIntValue widthNode cfg0.width,
          height := SetIntValue heightNode cfg0.height,
          acquisitionMode := cfg0.acquisitionMode,
          frameRateEnable := cfg0.frameRateEnable,
          frameRate := if cfg0.frameRateEnable then SetFloatValue fpsNode cfg0.frameRate
                       else cfg3.frameRate }
      { finalConfig := cfg4, streamsOpened := 4, streamsFinalized := 4,
        framesAppended := numImages, exitCode := 0, exceptionThrown := false }

/-- Outcome of a whole `main` invocation after argument parsing. -/
structure MainResult where
  exitCode : Int
  deviceConfigured : Bool
  streamsOpened : Nat
  streamsFinalized : Nat
deriving DecidableEq, Repr

/-- `main` after successful argument parsing (`record.cpp` lines 341–531):
the zero-dimension check (line 341), the confirmation prompt (lines
354–369), the no-camera check (line 377, returns 0), the `numImages == 0`
check (line 383, returns 0), then the device session. -/
def mainAfterParse (width height : Int) (numImages : Nat) (fps : ℚ)
    (proceedAnswer deviceConnected : Bool) (cfg0 : CamConfig)
    (widthNode heightNode : IntNode) (fpsNode : FloatNode)
    (captureOk : Nat → Bool) : MainResult :=
  -- line 341: if (height == 0 || width == 0) return -1;
  if height = 0 ∨ width = 0 then
    { exitCode := -1, deviceConfigured := false, streamsOpened := 0, streamsFinalized := 0 }
  -- lines 354–369: prompt; any answer other than 'y' returns -1
  else if proceedAnswer = false then
    { exitCode := -1, deviceConfigured := false, streamsOpened := 0, streamsFinalized := 0 }
  -- lines 374–382: no camera connected returns 0
  else if deviceConnected = false then
    { exitCode := 0, deviceConfigured := false, streamsOpened := 0, streamsFinalized := 0 }
  -- lines 383–388: numImages == 0 returns 0
  else if numImages = 0 then
    { exitCode := 0, deviceConfigured := false, streamsOpened := 0, streamsFinalized := 0 }
  else
    let s := runSession cfg0 widthNode heightNode fpsNode width height fps captureOk numImages
    { exitCode := s.exitCode, deviceConfigured := true,
      streamsOpened := s.streamsOpened, streamsFinalized := s.streamsFinalized }

/-! ### Helper functions used to state the loop characterisations -/

/-- Write the values `vs` into `l` at consecutive positions starting at
`start` (the effect of the destination writes of the splitting loop). -/
def setRun (l : List Nat) (start : Nat) : List Nat → List Nat
  | [] => l
  | v :: vs => setRun (l.set start v) (start + 1) vs

/-- The number of iterations the splitting loop performs: the number of
multiples of 4 in `[i, bufferSize)`. -/
def numIters (bufferSize i : Nat) : Nat := (bufferSize - i + 3) / 4

/-- The sequence of source samples of one angle: starting at source index
`i`, `n` samples at stride 4 with byte offset `off`. -/
def channelSeg (input : List Nat) (off : Nat) : Nat → Nat → List Nat
  | _, 0 => []
  | i, n + 1 => input.getD (i + off) 0 :: channelSeg input off (i + 4) n

/-! ### Lemmas about the helper functions -/

theorem set_append_cons (l₁ : List Nat) (a b : Nat) (l₂ : List Nat) :
    (l₁ ++ a :: l₂).set l₁.length b = l₁ ++ b :: l₂ := by
  induction l₁ with
  | nil => rfl
  | cons x xs ih => simp [List.set, ih]

theorem setRun_fill (z : Nat) :
    ∀ (vs pre post : List Nat),
      setRun (pre ++ List.replicate vs.length z ++ post) pre.length vs =
        pre ++ vs ++ post := by
  intro vs
  induction vs with
  | nil => intro pre post; simp [setRun]
  | cons v vs ih =>
    intro pre post
    show setRun ((pre ++ (z :: List.replicate vs.length z) ++ post).set pre.length v)
        (pre.length + 1) vs = pre ++ v :: vs ++ post
    rw [show pre ++ (z :: List.replicate vs.length z) ++ post =
          pre ++ z :: (List.replicate vs.length z ++ post) from by simp,
        set_append_cons]
    have h := ih (pre ++ [v]) post
    simp only [List.length_append, List.length_cons, List.length_nil, List.append_assoc,
      List.singleton_append, List.cons_append, List.nil_append] at h ⊢
    exact h

theorem setRun_replicate_full (z n : Nat) (vs : List Nat) (hlen : vs.length = n) :
    setRun (List.replicate n z) 0 vs = vs := by
  subst hlen
  have h := setRun_fill z vs [] []
  simpa using h

theorem channelSeg_length (input : List Nat) (off : Nat) :
    ∀ (n i : Nat), (channelSeg input off i n).length = n := by
  intro n
  induction n with
  | zero => intro i; rfl
  | succ n ih => intro i; simp [channelSeg, ih]

theorem channelSeg_getD (input : List Nat) (off : Nat) :
    ∀ (n i k : Nat), k < n →
      (channelSeg input off i n).getD k 0 = input.getD (i + 4 * k + off) 0 := by
  intro n
  induction n with
  | zero => intro i k hk; exact absurd hk (Nat.not_lt_zero k)
  | succ n ih =>
    intro i k hk
    cases k with
    | zero =>
      simp only [channelSeg, List.getD_cons_zero]
      congr 1
    | succ k =>
      simp only [channelSeg, List.getD_cons_succ]
      rw [ih (i + 4) k (by omega)]
      congr 1
      omega

theorem splitLoop_input (B : Nat) :
    ∀ (fuel i : Nat) (s : SplitState), (splitLoop B fuel i s).input = s.input := by
  intro fuel
  induction fuel with
  | zero => intro i s; rfl
  | succ fuel ih =>
    intro i s
    by_cases hi : i < B
    · simp [splitLoop, hi, ih, splitStep]
    · simp [splitLoop, hi]

theorem splitLoop_eq (B : Nat) :
    ∀ (fuel i : Nat) (s : SplitState), numIters B i ≤ fuel →
      splitLoop B fuel i s =
        { input := s.input,
          b0 := setRun s.b0 s.bufferIndex (channelSeg s.input 0 i (numIters B i)),
          b45 := setRun s.b45 s.bufferIndex (channelSeg s.input 1 i (numIters B i)),
          b90 := setRun s.b90 s.bufferIndex (channelSeg s.input 2 i (numIters B i)),
          b135 := setRun s.b135 s.bufferIndex (channelSeg s.input 3 i (numIters B i)),
          bufferIndex := s.bufferIndex + numIters B i } := by
  intro fuel
  induction fuel with
  | zero =>
    intro i s hle
    have h0 : numIters B i = 0 := Nat.le_zero.mp hle
    simp [splitLoop, h0, channelSeg, setRun]
  | succ fuel ih =>
    intro i s hle
    by_cases hi : i < B
    · have hstep : numIters B i = numIters B (i + 4) + 1 := by
        unfold numIters; omega
      have hle' : numIters B (i + 4) ≤ fuel := by omega
      have hunf : splitLoop B (fuel + 1) i s = splitLoop B fuel (i + 4) (splitStep s i) := by
        simp [splitLoop, hi]
      rw [hunf, ih (i + 4) (splitStep s i) hle', hstep]
      simp only [splitStep, channelSeg, setRun, Nat.add_zero, Nat.succ_add]
      rfl
    · have h0 : numIters B i = 0 := by unfold numIters; omega
      simp [splitLoop, hi, h0, channelSeg, setRun]

/-- For a `RawFrame` of the data model's size `w*h*4` (with `w*h ≥ 1`), the
splitting loop performs exactly `w*h` iterations and overwrites every entry
of each channel buffer with the strided source samples, independently of
the buffers' initial fill `z`. -/
theorem splitFrameFrom_eq (input : List Nat) (w h z : Nat)
    (hlen : input.length = 4 * (w * h)) (hwh : 1 ≤ w * h) :
    splitFrameFrom input w h z =
      { input := input,
        b0 := channelSeg input 0 0 (w * h),
        b45 := channelSeg input 1 0 (w * h),
        b90 := channelSeg input 2 0 (w * h),
        b135 := channelSeg input 3 0 (w * h),
        bufferIndex := w * h } := by
  have hn : numIters (input.length - 1) 0 = w * h := by
    unfold numIters; omega
  have hfuel : numIters (input.length - 1) 0 ≤ input.length - 1 := by
    rw [hn]; omega
  unfold splitFrameFrom createChannelBuffers
  rw [splitLoop_eq _ _ _ _ hfuel]
  simp only [hn]
  have h0 := setRun_replicate_full z (w * h) (channelSeg input 0 0 (w * h))
    (channelSeg_length input 0 (w * h) 0)
  have h45 := setRun_replicate_full z (w * h) (channelSeg input 1 0 (w * h))
    (channelSeg_length input 1 (w * h) 0)
  have h90 := setRun_replicate_full z (w * h) (channelSeg input 2 0 (w * h))
    (channelSeg_length input 2 (w * h) 0)
  have h135 := setRun_replicate_full z (w * h) (channelSeg input 3 0 (w * h))
    (channelSeg_length input 3 (w * h) 0)
  simp [h0, h45, h90, h135]

/-- Every index the loop reads belongs to a stride group `[g, g+3]` whose
start `g` is `i` plus a multiple of 4 and satisfies the loop guard `g <
bufferSize`. -/
theorem readIndices_mem (B : Nat) :
    ∀ (fuel i j : Nat), j ∈ readIndices B fuel i →
      ∃ k, i + 4 * k < B ∧ i + 4 * k ≤ j ∧ j ≤ i + 4 * k + 3 := by
  intro fuel
  induction fuel with
  | zero => intro i j hj; simp [readIndices] at hj
  | succ fuel ih =>
    intro i j hj
    by_cases hi : i < B
    · simp only [readIndices, if_pos hi, List.mem_cons] at hj
      rcases hj with h | h | h | h | h
      · exact ⟨0, by omega, by omega, by omega⟩
      · exact ⟨0, by omega, by omega, by omega⟩
      · exact ⟨0, by omega, by omega, by omega⟩
      · exact ⟨0, by omega, by omega, by omega⟩
      · obtain ⟨k, hk1, hk2, hk3⟩ := ih (i + 4) j h
        exact ⟨k + 1, by omega, by omega, by omega⟩
    · simp [readIndices, hi] at hj

/-- Closed form of the append loop: each stream is the initial stream
followed by the per-angle channel of each image, in capture order. -/
theorem foldl_appendImage (images : List Image) :
    ∀ r : Recorder, images.foldl appendImage r =
      { stream0 := r.stream0 ++
          images.map (fun img => (splitFrame img.data img.width img.height).b0),
        stream45 := r.stream45 ++
          images.map (fun img => (splitFrame img.data img.width img.height).b45),
        stream90 := r.stream90 ++
          images.map (fun img => (splitFrame img.data img.width img.height).b90),
        stream135 := r.stream135 ++
          images.map (fun img => (splitFrame img.data img.width img.height).b135) } := by
  induction images with
  | nil => intro r; simp
  | cons img images ih =>
    intro r
    simp only [List.foldl_cons, ih, List.map_cons]
    simp [appendImage, List.append_assoc]

/-- If some frame in range fails to capture, the capture loop reports a
failing frame (the `GetImage` call throws). -/
theorem captureLoop_fails (captureOk : Nat → Bool) :
    ∀ (n start : Nat), (∃ i, i < n ∧ captureOk (start + i) = false) →
      ∃ j, captureLoop captureOk start n = some j := by
  intro n
  induction n with
  | zero =>
    intro start h
    obtain ⟨i, hi, _⟩ := h
    exact absurd hi (Nat.not_lt_zero i)
  | succ n ih =>
    intro start h
    obtain ⟨i, hi, hfail⟩ := h
    by_cases hok : captureOk start = true
    · have hi0 : 1 ≤ i := by
        rcases Nat.eq_zero_or_pos i with h0 | h0
        · subst h0; rw [Nat.add_zero] at hfail; simp [hok] at hfail
        · exact h0
      have hstep : captureLoop captureOk start (n + 1) =
          captureLoop captureOk (start + 1) n := by
        simp [captureLoop, hok]
      rw [hstep]
      apply ih
      refine ⟨i - 1, by omega, ?_⟩
      have harg : start + 1 + (i - 1) = start + i := by omega
      rw [harg]
      exact hfail
    · exact ⟨start, by simp [captureLoop, hok]⟩

/-- `SetIntValue` is the identity on values that are representable in the
node: within `[min, max]` and on the increment grid. -/
theorem SetIntValue_fixed (n : IntNode) (v : Int) (h1 : n.min ≤ v) (h2 : v ≤ n.max)
    (hmod : (v - n.min) % n.inc = 0) (hinc : 0 < n.inc) : SetIntValue n v = v := by
  obtain ⟨q, hq⟩ := Int.dvd_of_emod_eq_zero hmod
  have hsnap : ((v - n.min).tdiv n.inc) * n.inc + n.min = v := by
    rw [hq, Int.mul_tdiv_cancel_left q (by omega)]
    linarith [hq, mul_comm q n.inc]
  have hA : ¬ (v < n.min) := by omega
  have hB : ¬ (v > n.max) := by omega
  simp only [SetIntValue, hsnap, if_neg hA, if_neg hB]

/-- `SetFloatValue` is the identity on values already within `[min, max]`. -/
theorem SetFloatValue_fixed (f : FloatNode) (x : ℚ) (h1 : f.min ≤ x)
    (h2 : x ≤ f.max) : SetFloatValue f x = x := by
  have hA : ¬ (x < f.min) := not_lt.mpr h1
  have hB : ¬ (x > f.max) := not_lt.mpr h2
  simp only [SetFloatValue, if_neg hA, if_neg hB]

/-! ### Claim theorems -/

/-- C1: For every RawFrame and every valid stride index `k`, the splitter
writes the byte at source offset `4k + angle_offset` into the channel frame
for that angle at index `k`: `ChannelFrame0[k] = RawFrame[4k]`,
`ChannelFrame45[k] = RawFrame[4k+1]`, `ChannelFrame90[k] = RawFrame[4k+2]`,
`ChannelFrame135[k] = RawFrame[4k+3]`; in particular, for the RawFrame
`[10,20,30,40,11,21,31,41]` with `w*h = 2` the four resulting ChannelFrames
are `[10,11]`, `[20,21]`, `[30,31]`, `[40,41]`. -/
theorem splitter_strided_copy (input : List Nat) (w h k : Nat)
    (hlen : input.length = 4 * (w * h)) (hk : k < w * h) :
    ((splitFrame input w h).b0.getD k 0 = input.getD (4 * k) 0 ∧
     (splitFrame input w h).b45.getD k 0 = input.getD (4 * k + 1) 0 ∧
     (splitFrame input w h).b90.getD k 0 = input.getD (4 * k + 2) 0 ∧
     (splitFrame input w h).b135.getD k 0 = input.getD (4 * k + 3) 0) ∧
    splitFrame [10, 20, 30, 40, 11, 21, 31, 41] 2 1 =
      { input := [10, 20, 30, 40, 11, 21, 31, 41],
        b0 := [10, 11], b45 := [20, 21], b90 := [30, 31], b135 := [40, 41],
        bufferIndex := 2 } := by
  have hwh : 1 ≤ w * h := by omega
  have heq := splitFrameFrom_eq input w h 0 hlen hwh
  refine ⟨?_, by decide⟩
  rw [show splitFrame input w h = splitFrameFrom input w h 0 from rfl, heq]
  refine ⟨?_, ?_, ?_, ?_⟩ <;>
    · rw [channelSeg_getD input _ (w * h) 0 k hk]
      simp [Nat.zero_add, Nat.add_zero]

theorem splitter_strided_copy_witness :
    ([10, 20, 30, 40, 11, 21, 31, 41] : List Nat).length = 4 * (2 * 1) ∧
    0 < 2 * 1 ∧
    (splitFrame [10, 20, 30, 40, 11, 21, 31, 41] 2 1).b0.getD 0 0 =
      ([10, 20, 30, 40, 11, 21, 31, 41] : List Nat).getD (4 * 0) 0 :=
  ⟨by decide, by decide,
    ((splitter_strided_copy [10, 20, 30, 40, 11, 21, 31, 41] 2 1 0 (by decide)
      (by decide)).1).1⟩

/-- C2: For every RawFrame (size `w*h*4` per the data model, `w*h ≥ 1`),
iterating over the source buffer with usable length `GetSizeFilled() - 1`
never reads a source index exceeding the usable length, and every stride
group whose last byte `4k+3` would exceed the usable length is dropped:
none of its four indices is read. -/
theorem splitter_reads_within_usable_length (input : List Nat) (w h : Nat)
    (hlen : input.length = 4 * (w * h)) (hwh : 1 ≤ w * h) :
    (∀ j ∈ splitterReadIndices input, j ≤ input.length - 1) ∧
    (∀ k : Nat, input.length - 1 < 4 * k + 3 →
      4 * k ∉ splitterReadIndices input ∧
      4 * k + 1 ∉ splitterReadIndices input ∧
      4 * k + 2 ∉ splitterReadIndices input ∧
      4 * k + 3 ∉ splitterReadIndices input) := by
  constructor
  · intro j hj
    obtain ⟨k, hk1, hk2, hk3⟩ :=
      readIndices_mem (input.length - 1) (input.length - 1) 0 j hj
    omega
  · intro k hk
    refine ⟨?_, ?_, ?_, ?_⟩ <;>
      · intro hmem
        obtain ⟨k', h1, h2, h3⟩ :=
          readIndices_mem (input.length - 1) (input.length - 1) 0 _ hmem
        omega

theorem splitter_reads_within_usable_length_witness :
    ([10, 20, 30, 40, 11, 21, 31, 41] : List Nat).length = 4 * (2 * 1) ∧
    0 < 2 * 1 ∧
    ∀ j ∈ splitterReadIndices [10, 20, 30, 40, 11, 21, 31, 41],
      j ≤ ([10, 20, 30, 40, 11, 21, 31, 41] : List Nat).length - 1 :=
  ⟨by decide, by decide,
    (splitter_reads_within_usable_length [10, 20, 30, 40, 11, 21, 31, 41] 2 1
      (by decide) (by decide)).1⟩

/-- C6: For every RawFrame of size `w*h*4` bytes (`w*h ≥ 1`), splitting
produces exactly four ChannelFrames (the four buffers of `SplitState`),
each of size exactly `w*h` bytes, with every index `0..w*h-1` of each
ChannelFrame written: the result does not depend on the initial fill `z` of
the freshly allocated buffers, so no entry is left unset. -/
theorem splitter_full_coverage (input : List Nat) (w h : Nat)
    (hlen : input.length = 4 * (w * h)) (hwh : 1 ≤ w * h) :
    ((splitFrame input w h).b0.length = w * h ∧
     (splitFrame input w h).b45.length = w * h ∧
     (splitFrame input w h).b90.length = w * h ∧
     (splitFrame input w h).b135.length = w * h) ∧
    (∀ z : Nat, splitFrameFrom input w h z = splitFrame input w h) := by
  have heq0 := splitFrameFrom_eq input w h 0 hlen hwh
  constructor
  · rw [show splitFrame input w h = splitFrameFrom input w h 0 from rfl, heq0]
    exact ⟨channelSeg_length input 0 (w * h) 0, channelSeg_length input 1 (w * h) 0,
      channelSeg_length input 2 (w * h) 0, channelSeg_length input 3 (w * h) 0⟩
  · intro z
    rw [show splitFrame input w h = splitFrameFrom input w h 0 from rfl, heq0,
      splitFrameFrom_eq input w h z hlen hwh]

theorem splitter_full_coverage_witness :
    ([10, 20, 30, 40, 11, 21, 31, 41] : List Nat).length = 4 * (2 * 1) ∧
    0 < 2 * 1 ∧
    (splitFrame [10, 20, 30, 40, 11, 21, 31, 41] 2 1).b0.length = 2 * 1 :=
  ⟨by decide, by decide,
    ((splitter_full_coverage [10, 20, 30, 40, 11, 21, 31, 41] 2 1
      (by decide) (by decide)).1).1⟩

/-- C9: Splitting is a pure, deterministic function of the RawFrame bytes:
the RawFrame (`input`) is left unchanged by the splitting loop, and running
the splitter a second time on the (unchanged) RawFrame yields a result that
is byte-identical in all four channels to the first run. -/
theorem splitter_pure (input : List Nat) (w h : Nat) :
    (splitFrame input w h).input = input ∧
    splitFrame (splitFrame input w h).input w h = splitFrame input w h := by
  have h1 : (splitFrame input w h).input = input := by
    unfold splitFrame splitFrameFrom
    exact splitLoop_input _ _ _ _
  exact ⟨h1, by rw [h1]⟩

/-- C4: For every list of `N ≥ 1` captured RawFrames, the recorder appends
exactly `N` frames to each of the four video streams, and for every frame
index `i` the four ChannelFrames derived from RawFrame `i` sit in their
respective streams at position `i`, in the original capture order. -/
theorem recorder_appends_all_frames_in_order (images : List Image) (i : Nat)
    (_hN : 1 ≤ images.length) (hi : i < images.length) :
    ((recordVideo images).stream0.length = images.length ∧
     (recordVideo images).stream45.length = images.length ∧
     (recordVideo images).stream90.length = images.length ∧
     (recordVideo images).stream135.length = images.length) ∧
    ((recordVideo images).stream0.getD i [] =
       (splitFrame (images.getD i emptyImage).data (images.getD i emptyImage).width
         (images.getD i emptyImage).height).b0 ∧
     (recordVideo images).stream45.getD i [] =
       (splitFrame (images.getD i emptyImage).data (images.getD i emptyImage).width
         (images.getD i emptyImage).height).b45 ∧
     (recordVideo images).stream90.getD i [] =
       (splitFrame (images.getD i emptyImage).data (images.getD i emptyImage).width
         (images.getD i emptyImage).height).b90 ∧
     (recordVideo images).stream135.getD i [] =
       (splitFrame (images.getD i emptyImage).data (images.getD i emptyImage).width
         (images.getD i emptyImage).height).b135) := by
  have hImg : images.getD i emptyImage = images[i] :=
    List.getD_eq_getElem images emptyImage hi
  unfold recordVideo
  rw [foldl_appendImage]
  simp only [List.nil_append]
  constructor
  · exact ⟨by simp, by simp, by simp, by simp⟩
  · refine ⟨?_, ?_, ?_, ?_⟩ <;>
      · rw [List.getD_eq_getElem _ _ (by simpa using hi)]
        simp only [List.getElem_map]
        rw [hImg]

theorem recorder_appends_all_frames_in_order_witness :
    1 ≤ ([⟨2, 1, [10, 20, 30, 40, 11, 21, 31, 41]⟩] : List Image).length ∧
    0 < ([⟨2, 1, [10, 20, 30, 40, 11, 21, 31, 41]⟩] : List Image).length ∧
    (recordVideo [⟨2, 1, [10, 20, 30, 40, 11, 21, 31, 41]⟩]).stream0.length =
      ([⟨2, 1, [10, 20, 30, 40, 11, 21, 31, 41]⟩] : List Image).length :=
  ⟨by decide, by decide,
    ((recorder_appends_all_frames_in_order
      [⟨2, 1, [10, 20, 30, 40, 11, 21, 31, 41]⟩] 0
      (by decide) (by decide)).1).1⟩

/-- C3 counterexample: the claim that the four per-angle buffers handed to
the recorders are byte-identical, each index `k` holding `RawFrame[4k+3]`,
is false at the concrete frame `[10,20,30,40,11,21,31,41]`: the frame
appended to stream 0 differs from the one appended to stream 135, and its
entry at `k = 0` is `RawFrame[0] = 10`, not `RawFrame[3] = 40`. -/
theorem shared_buffer_claim_false :
    (recordVideo [⟨2, 1, [10, 20, 30, 40, 11, 21, 31, 41]⟩]).stream0.getD 0 [] ≠
      (recordVideo [⟨2, 1, [10, 20, 30, 40, 11, 21, 31, 41]⟩]).stream135.getD 0 [] ∧
    ((recordVideo [⟨2, 1, [10, 20, 30, 40, 11, 21, 31, 41]⟩]).stream0.getD 0 []).getD 0 0 ≠
      ([10, 20, 30, 40, 11, 21, 31, 41] : List Nat).getD (4 * 0 + 3) 0 := by
  decide

/-- C3 amended: the one `dummyBuffer` allocation is passed to all four
`ImageFactory::Create` calls, but each call creates a fresh per-angle
buffer (spec: ChannelFrames are "Created fresh per RawFrame per angle"),
so at append time the four per-angle buffers are not byte-identical in
general: each index `k` of the buffer appended for an angle holds that
angle's own sample `RawFrame[4k + angle_offset]`. -/
theorem per_angle_buffers_hold_own_samples (images : List Image) (i k : Nat)
    (hi : i < images.length)
    (hlen : (images.getD i emptyImage).data.length =
      4 * ((images.getD i emptyImage).width * (images.getD i emptyImage).height))
    (hk : k < (images.getD i emptyImage).width * (images.getD i emptyImage).height) :
    ((recordVideo images).stream0.getD i []).getD k 0 =
        (images.getD i emptyImage).data.getD (4 * k) 0 ∧
    ((recordVideo images).stream45.getD i []).getD k 0 =
        (images.getD i emptyImage).data.getD (4 * k + 1) 0 ∧
    ((recordVideo images).stream90.getD i []).getD k 0 =
        (images.getD i emptyImage).data.getD (4 * k + 2) 0 ∧
    ((recordVideo images).stream135.getD i []).getD k 0 =
        (images.getD i emptyImage).data.getD (4 * k + 3) 0 := by
  have hImg : images.getD i emptyImage = images[i] :=
    List.getD_eq_getElem images emptyImage hi
  rw [hImg] at hlen hk ⊢
  have hwh : 1 ≤ images[i].width * images[i].height := by omega
  have heq := splitFrameFrom_eq images[i].data images[i].width images[i].height 0 hlen hwh
  unfold recordVideo
  rw [foldl_appendImage]
  simp only [List.nil_append]
  have hmap : ∀ f : Image → List Nat, (images.map f).getD i [] = f images[i] := by
    intro f
    rw [List.getD_eq_getElem _ _ (by simpa using hi)]
    simp
  refine ⟨?_, ?_, ?_, ?_⟩ <;>
    · rw [hmap]
      rw [show splitFrame images[i].data images[i].width images[i].height =
            splitFrameFrom images[i].data images[i].width images[i].height 0 from rfl,
        heq]
      rw [channelSeg_getD _ _ _ 0 k hk]
      simp [Nat.zero_add, Nat.add_zero]

theorem per_angle_buffers_hold_own_samples_witness :
    0 < ([⟨2, 1, [10, 20, 30, 40, 11, 21, 31, 41]⟩] : List Image).length ∧
    (([⟨2, 1, [10, 20, 30, 40, 11, 21, 31, 41]⟩] : List Image).getD 0 emptyImage).data.length =
      4 * ((([⟨2, 1, [10, 20, 30, 40, 11, 21, 31, 41]⟩] : List Image).getD 0 emptyImage).width *
        (([⟨2, 1, [10, 20, 30, 40, 11, 21, 31, 41]⟩] : List Image).getD 0 emptyImage).height) ∧
    ((recordVideo [⟨2, 1, [10, 20, 30, 40, 11, 21, 31, 41]⟩]).stream0.getD 0 []).getD 0 0 =
      (([⟨2, 1, [10, 20, 30, 40, 11, 21, 31, 41]⟩] : List Image).getD 0 emptyImage).data.getD (4 * 0) 0 :=
  ⟨by decide, by decide,
    (per_angle_buffers_hold_own_samples [⟨2, 1, [10, 20, 30, 40, 11, 21, 31, 41]⟩] 0 0
      (by decide) (by decide) (by decide)).1⟩

/-- C7: For every requested value and every node with `min ≤ max` and
positive increment, `SetIntValue` returns a value `v` with `min ≤ v ≤ max`
(out-of-range requests are clamped after increment snapping, never
rejected); likewise `SetFloatValue` returns a value within `[min, max]`. -/
theorem set_value_clamped_into_range (n : IntNode) (f : FloatNode) (v : Int) (x : ℚ)
    (hn : n.min ≤ n.max) (_hinc : 0 < n.inc) (hf : f.min ≤ f.max) :
    (n.min ≤ SetIntValue n v ∧ SetIntValue n v ≤ n.max) ∧
    (f.min ≤ SetFloatValue f x ∧ SetFloatValue f x ≤ f.max) := by
  constructor
  · have key : ∀ s : Int,
        n.min ≤ (if (if s < n.min then n.min else s) > n.max then n.max
                 else (if s < n.min then n.min else s)) ∧
        (if (if s < n.min then n.min else s) > n.max then n.max
         else (if s < n.min then n.min else s)) ≤ n.max := by
      intro s
      split_ifs <;> constructor <;> omega
    exact key (((v - n.min).tdiv n.inc) * n.inc + n.min)
  · have key : ∀ s : ℚ,
        f.min ≤ (if (if s < f.min then f.min else s) > f.max then f.max
                 else (if s < f.min then f.min else s)) ∧
        (if (if s < f.min then f.min else s) > f.max then f.max
         else (if s < f.min then f.min else s)) ≤ f.max := by
      intro s
      split_ifs <;> constructor <;> linarith
    exact key x

theorem set_value_clamped_into_range_witness :
    ((0 : Int) ≤ 100 ∧ (0 : Int) < 4 ∧ (1 : ℚ) ≤ 30) ∧
    (((0 : Int) ≤ SetIntValue ⟨0, 100, 4⟩ 250 ∧ SetIntValue ⟨0, 100, 4⟩ 250 ≤ 100) ∧
     ((1 : ℚ) ≤ SetFloatValue ⟨1, 30⟩ 0 ∧ SetFloatValue ⟨1, 30⟩ 0 ≤ 30)) :=
  ⟨⟨by decide, by decide, by norm_num⟩,
    set_value_clamped_into_range ⟨0, 100, 4⟩ ⟨1, 30⟩ 250 0
      (by decide) (by decide) (by norm_num)⟩

/-- C8: For every run in which a capture failure (e.g. a `GetImage`
timeout) occurs on some frame before all `numImages` frames are grabbed,
the session aborts: the recording phase is never entered (no frame is
appended), no video stream is ever opened, exactly 0 of the 4 output files
are finalized, and the process exits with a failure code after the
exception is caught. -/
theorem capture_failure_aborts_session (cfg0 : CamConfig) (wn hn : IntNode)
    (fn : FloatNode) (reqW reqH : Int) (reqF : ℚ) (captureOk : Nat → Bool)
    (numImages : Nat) (hfail : ∃ i, i < numImages ∧ captureOk i = false) :
    (runSession cfg0 wn hn fn reqW reqH reqF captureOk numImages).streamsOpened = 0 ∧
    (runSession cfg0 wn hn fn reqW reqH reqF captureOk numImages).streamsFinalized = 0 ∧
    (runSession cfg0 wn hn fn reqW reqH reqF captureOk numImages).framesAppended = 0 ∧
    (runSession cfg0 wn hn fn reqW reqH reqF captureOk numImages).exceptionThrown = true ∧
    (runSession cfg0 wn hn fn reqW reqH reqF captureOk numImages).exitCode = -1 := by
  obtain ⟨j, hj⟩ := captureLoop_fails captureOk numImages 0 (by simpa using hfail)
  simp [runSession, hj]

theorem capture_failure_aborts_session_witness :
    (∃ i, i < 50 ∧ (fun m => decide (m ≠ 29)) i = false) ∧
    (runSession ⟨0, false, 0, 64, 64, 0⟩ ⟨8, 128, 8⟩ ⟨8, 128, 8⟩ ⟨1, 100⟩ 64 64 10
      (fun m => decide (m ≠ 29)) 50).streamsOpened = 0 :=
  ⟨⟨29, by decide, by decide⟩,
    (capture_failure_aborts_session ⟨0, false, 0, 64, 64, 0⟩ ⟨8, 128, 8⟩ ⟨8, 128, 8⟩
      ⟨1, 100⟩ 64 64 10 (fun m => decide (m ≠ 29)) 50
      ⟨29, by decide, by decide⟩).1⟩

/-- C10: For every invocation whose parsed width or height equals 0, the
program rejects the request with a failure exit code (-1) before any device
configuration or streaming begins: the zero-dimension check (line 341) runs
before the prompt, before the device is opened and before any stream. -/
theorem zero_dimension_rejected (width height : Int) (numImages : Nat) (fps : ℚ)
    (proceedAnswer deviceConnected : Bool) (cfg0 : CamConfig)
    (wn hn : IntNode) (fn : FloatNode) (captureOk : Nat → Bool)
    (hzero : width = 0 ∨ height = 0) :
    (mainAfterParse width height numImages fps proceedAnswer deviceConnected
      cfg0 wn hn fn captureOk).exitCode = -1 ∧
    (mainAfterParse width height numImages fps proceedAnswer deviceConnected
      cfg0 wn hn fn captureOk).deviceConfigured = false ∧
    (mainAfterParse width height numImages fps proceedAnswer deviceConnected
      cfg0 wn hn fn captureOk).streamsOpened = 0 ∧
    (mainAfterParse width height numImages fps proceedAnswer deviceConnected
      cfg0 wn hn fn captureOk).streamsFinalized = 0 := by
  have hcond : height = 0 ∨ width = 0 := hzero.symm
  unfold mainAfterParse
  rw [if_pos hcond]
  exact ⟨rfl, rfl, rfl, rfl⟩

theorem zero_dimension_rejected_witness :
    ((0 : Int) = 0 ∨ (100 : Int) = 0) ∧
    (mainAfterParse 0 100 50 10 true true ⟨0, false, 0, 64, 64, 0⟩
      ⟨8, 128, 8⟩ ⟨8, 128, 8⟩ ⟨1, 100⟩ (fun _ => true)).exitCode = -1 :=
  ⟨Or.inl rfl,
    (zero_dimension_rejected 0 100 50 10 true true ⟨0, false, 0, 64, 64, 0⟩
      ⟨8, 128, 8⟩ ⟨8, 128, 8⟩ ⟨1, 100⟩ (fun _ => true) (Or.inl rfl)).1⟩

/-- C5 counterexample: the claim that the settings saved at session start
are restored on every exit path is false: with initial acquisition mode 0,
a session whose first capture fails exits through the catch handlers
(exit code -1) with the device still in the mutated state — the final
acquisition mode is `modeContinuous = 1`, not the saved 0.  The restore
code (lines 497–512) lies at the end of the `try` block and is skipped
when an exception aborts the session. -/
theorem settings_not_restored_on_exception :
    (runSession ⟨0, false, 0, 64, 64, 0⟩ ⟨8, 128, 8⟩ ⟨8, 128, 8⟩ ⟨1, 100⟩ 64 64 10
      (fun _ => false) 1).exceptionThrown = true ∧
    (runSession ⟨0, false, 0, 64, 64, 0⟩ ⟨8, 128, 8⟩ ⟨8, 128, 8⟩ ⟨1, 100⟩ 64 64 10
      (fun _ => false) 1).exitCode = -1 ∧
    (runSession ⟨0, false, 0, 64, 64, 0⟩ ⟨8, 128, 8⟩ ⟨8, 128, 8⟩ ⟨1, 100⟩ 64 64 10
      (fun _ => false) 1).finalConfig.acquisitionMode ≠ 0 := by
  refine ⟨rfl, rfl, ?_⟩
  decide

/-- C5 amended: the device settings saved at session start (acquisition
mode, frame-rate enable, frame rate, width, height) are restored before
exit only on the normal completion path (when all captures succeed and the
saved values are representable in their nodes); on an error or early abort
via exception, the catch handlers terminate the run with exit code -1 and
the settings are left in their mutated state (mode `Continuous`, the
requested width/height/frame-rate values), not restored. -/
theorem settings_restored_only_on_success
    (cfg0 : CamConfig) (wn hn : IntNode) (fn : FloatNode)
    (reqW reqH : Int) (reqF : ℚ) (captureOk : Nat → Bool) (numImages : Nat)
    (hw1 : wn.min ≤ cfg0.width) (hw2 : cfg0.width ≤ wn.max)
    (hw3 : (cfg0.width - wn.min) % wn.inc = 0) (hw4 : 0 < wn.inc)
    (hh1 : hn.min ≤ cfg0.height) (hh2 : cfg0.height ≤ hn.max)
    (hh3 : (cfg0.height - hn.min) % hn.inc = 0) (hh4 : 0 < hn.inc)
    (hf1 : fn.min ≤ cfg0.frameRate) (hf2 : cfg0.frameRate ≤ fn.max) :
    (captureLoop captureOk 0 numImages = none →
      ((runSession cfg0 wn hn fn reqW reqH reqF captureOk numImages).finalConfig.acquisitionMode
          = cfg0.acquisitionMode ∧
       (runSession cfg0 wn hn fn reqW reqH reqF captureOk numImages).finalConfig.frameRateEnable
          = cfg0.frameRateEnable ∧
       (cfg0.frameRateEnable = true →
        (runSession cfg0 wn hn fn reqW reqH reqF captureOk numImages).finalConfig.frameRate
          = cfg0.frameRate) ∧
       (runSession cfg0 wn hn fn reqW reqH reqF captureOk numImages).finalConfig.width
          = cfg0.width ∧
       (runSession cfg0 wn hn fn reqW reqH reqF captureOk numImages).finalConfig.height
          = cfg0.height ∧
       (runSession cfg0 wn hn fn reqW reqH reqF captureOk numImages).exitCode = 0)) ∧
    (∀ j, captureLoop captureOk 0 numImages = some j →
      ((runSession cfg0 wn hn fn reqW reqH reqF captureOk numImages).exceptionThrown = true ∧
       (runSession cfg0 wn hn fn reqW reqH reqF captureOk numImages).exitCode = -1 ∧
       (runSession cfg0 wn hn fn reqW reqH reqF captureOk numImages).finalConfig.acquisitionMode
          = modeContinuous ∧
       (runSession cfg0 wn hn fn reqW reqH reqF captureOk numImages).finalConfig.frameRateEnable
          = true ∧
       (runSession cfg0 wn hn fn reqW reqH reqF captureOk numImages).finalConfig.width
          = SetIntValue wn reqW ∧
       (runSession cfg0 wn hn fn reqW reqH reqF captureOk numImages).finalConfig.height
          = SetIntValue hn reqH ∧
       (runSession cfg0 wn hn fn reqW reqH reqF captureOk numImages).finalConfig.frameRate
          = SetFloatValue fn reqF)) := by
  constructor
  · intro hnone
    simp only [runSession, hnone]
    refine ⟨trivial, trivial, ?_, ?_, ?_, trivial⟩
    · intro hEn
      rw [if_pos hEn]
      exact SetFloatValue_fixed fn cfg0.frameRate hf1 hf2
    · exact SetIntValue_fixed wn cfg0.width hw1 hw2 hw3 hw4
    · exact SetIntValue_fixed hn cfg0.height hh1 hh2 hh3 hh4
  · intro j hj
    simp only [runSession, hj]
    exact ⟨trivial, trivial, trivial, trivial, trivial, trivial, trivial⟩

theorem settings_restored_only_on_success_witness :
    ((8 : Int) ≤ 64 ∧ (64 : Int) ≤ 128 ∧ ((64 : Int) - 8) % 8 = 0 ∧ (0 : Int) < 8 ∧
     (1 : ℚ) ≤ 5 ∧ (5 : ℚ) ≤ 100) ∧
    captureLoop (fun _ => true) 0 2 = none ∧
    (runSession ⟨0, true, 5, 64, 64, 0⟩ ⟨8, 128, 8⟩ ⟨8, 128, 8⟩ ⟨1, 100⟩ 64 64 10
      (fun _ => true) 2).finalConfig.acquisitionMode = 0 :=
  ⟨⟨by decide, by decide, by decide, by decide, by norm_num, by norm_num⟩, rfl,
    ((settings_restored_only_on_success ⟨0, true, 5, 64, 64, 0⟩ ⟨8, 128, 8⟩ ⟨8, 128, 8⟩
      ⟨1, 100⟩ 64 64 10 (fun _ => true) 2
      (by decide) (by decide) (by decide) (by decide)
      (by decide) (by decide) (by decide) (by decide)
      (by norm_num) (by norm_num)).1 rfl).1⟩
